import Mathlib

set_option linter.unusedVariables false

/-!
Shallow embedding of the Middle Earth AI program (Anchor/Rust) core:
the staking vault (instructions/token.rs), the battle settlement engine
(instructions/battle.rs), the alliance registry (instructions/alliance.rs),
agent lifecycle (instructions/agent.rs, instructions/movement.rs) and the
cooldown checks (state/agent.rs).

Conventions: u64 / u128 machine integers become Nat with explicit bounds
(U64_MOD, U128_MOD) at every place the source uses checked arithmetic or a
narrowing cast; i64 timestamps become Int; Pubkey account addresses become
Nat identifiers; fallible instructions return Except GameError.
-/

/-- Upper bound (exclusive) of u64. -/
def U64_MOD : Nat := 2 ^ 64

/-- Upper bound (exclusive) of u128. -/
def U128_MOD : Nat := 2 ^ 128

/-- constants.rs: MOVEMENT_COOLDOWN = 3600 (1 hour). -/
def MOVEMENT_COOLDOWN : Int := 3600

/-- constants.rs: BATTLE_COOLDOWN = 14400 (4 hours). -/
def BATTLE_COOLDOWN : Int := 14400

/-- constants.rs: ALLIANCE_COOLDOWN = 86400 (24 hours). -/
def ALLIANCE_COOLDOWN : Int := 86400

/-- token.rs: ONE_HOUR = 3600, the withdrawal cooldown set by deposits. -/
def ONE_HOUR : Int := 3600

/-- error.rs: the GameError variants the embedded instructions raise, plus
two runtime-level failures the Rust code delegates to collaborators:
AccountAlreadyInUse models Anchor account resolution failing before the
instruction body runs (an `init` on an existing stake_info account, or a
seeds-addressed stake_info account that does not exist), and
TokenTransferFailed models a failed SPL token transfer (insufficient
source funds or destination overflow). -/
inductive GameError where
  | AgentNotAlive
  | MovementCooldown
  | OutOfBounds
  | BattleInProgress
  | BattleCooldown
  | AllianceCooldown
  | NotEnoughTokens
  | InsufficientFunds
  | Unauthorized
  | InvalidAlliancePartner
  | AllianceAlreadyExists
  | NoAllianceToBreak
  | AllianceNotFound
  | CooldownNotOver
  | InvalidAmount
  | BattleNotStarted
  | BattleAlreadyStarted
  | BattleNotReadyToResolve
  | AccountAlreadyInUse
  | TokenTransferFailed
  deriving DecidableEq, Repr

/-- Rust u64::checked_add. -/
def checked_add_u64 (a b : Nat) : Option Nat :=
  if a + b < U64_MOD then some (a + b) else none

/-- Rust u64::checked_mul. -/
def checked_mul_u64 (a b : Nat) : Option Nat :=
  if a * b < U64_MOD then some (a * b) else none

/-- Rust u128::checked_add. -/
def checked_add_u128 (a b : Nat) : Option Nat :=
  if a + b < U128_MOD then some (a + b) else none

/-- Rust u128::checked_mul. -/
def checked_mul_u128 (a b : Nat) : Option Nat :=
  if a * b < U128_MOD then some (a * b) else none

/-- Rust checked_sub on unsigned integers (any width): none on underflow. -/
def checked_sub (a b : Nat) : Option Nat :=
  if b ≤ a then some (a - b) else none

/-- Rust checked_div on unsigned integers: none when the divisor is zero. -/
def checked_div (a b : Nat) : Option Nat :=
  if b = 0 then none else some (a / b)

/-- Modelled from the spec: the Ledger collaborator's transfer primitive
(spl_token transfer, executed by CPI in the source, not part of src/).
Moves amount from source to destination; fails when the source balance is
insufficient or the destination balance would overflow u64. -/
def spl_transfer (source dest amount : Nat) : Option (Nat × Nat) :=
  if amount ≤ source ∧ dest + amount < U64_MOD then
    some (source - amount, dest + amount)
  else none

/-- state/stake_info.rs: StakeInfo, one record per (agent, staker); the
agent Pubkey field is dropped because the embedded vault system is
per-agent (every record in it belongs to the one agent). -/
structure StakeInfo where
  staker : Nat
  amount : Nat
  shares : Nat
  last_reward_timestamp : Int
  cooldown_ends_at : Int
  is_initialized : Bool
  deriving DecidableEq, Repr

/-- state/game.rs draft plus token.rs usage: StakerStake, one aggregate
total per staker in game.total_stake_accounts. -/
structure StakerStake where
  staker : Nat
  total_stake : Nat
  deriving DecidableEq, Repr

/-- The state one agent's staking vault instructions read and write:
the agent's share/stake totals (token.rs treats both as u128), the SPL
vault balance (u64), the agent's StakeInfo accounts and the game's
per-staker totals. -/
structure VaultSys where
  total_shares : Nat
  staked_balance : Nat
  vault_balance : Nat
  stakes : List StakeInfo
  total_stake_accounts : List StakerStake
  deriving DecidableEq, Repr

/-- First StakeInfo of the given staker (the PDA seeds make it unique). -/
def findStake : List StakeInfo → Nat → Option StakeInfo
  | [], _ => none
  | si :: rest, k => if si.staker = k then some si else findStake rest k

/-- Replace the first StakeInfo of the given staker. -/
def updStake : List StakeInfo → Nat → StakeInfo → List StakeInfo
  | [], _, _ => []
  | si :: rest, k, new => if si.staker = k then new :: rest else si :: updStake rest k new

/-- token.rs add_stake_to_game: add amount to the staker's aggregate total
(checked_add, error NotEnoughTokens), pushing a fresh entry if absent. -/
def add_stake_to_game : List StakerStake → Nat → Nat → Except GameError (List StakerStake)
  | [], staker, amount => .ok [⟨staker, amount⟩]
  | e :: rest, staker, amount =>
    if e.staker = staker then
      match checked_add_u64 e.total_stake amount with
      | none => .error .NotEnoughTokens
      | some t => .ok (⟨e.staker, t⟩ :: rest)
    else
      match add_stake_to_game rest staker amount with
      | .error err => .error err
      | .ok rest' => .ok (e :: rest')

/-- token.rs remove_stake_from_game: subtract amount from the staker's
aggregate total (checked_sub, error NotEnoughTokens); a missing entry is a
successful no-op. -/
def remove_stake_from_game : List StakerStake → Nat → Nat → Except GameError (List StakerStake)
  | [], _, _ => .ok []
  | e :: rest, staker, amount =>
    if e.staker = staker then
      match checked_sub e.total_stake amount with
      | none => .error .NotEnoughTokens
      | some t => .ok (⟨e.staker, t⟩ :: rest)
    else
      match remove_stake_from_game rest staker amount with
      | .error err => .error err
      | .ok rest' => .ok (e :: rest')

/-- token.rs lines 74-83 and 138-147 (the same computation appears verbatim
in initialize_stake and stake_tokens). vault_balance_read is the vault
balance the source reads at that point: the token transfer at lines 66/130
has already executed, so it INCLUDES the deposit (the source's comment
says BEFORE, its own CPI ordering says after). Mints deposit_amount when
the read balance equals the deposit (vault empty before) or total_shares
is zero; otherwise floor(deposit_amount * total_shares /
vault_balance_read) in checked u128 arithmetic. -/
def shares_to_mint_calc (vault_balance_read deposit_amount total_shares : Nat) : Option Nat :=
  if vault_balance_read = deposit_amount ∨ total_shares = 0 then
    some deposit_amount
  else
    match checked_mul_u128 deposit_amount total_shares with
    | none => none
    | some p => checked_div p vault_balance_read

/-- token.rs initialize_stake (lines 48-110), acting on one agent's vault
system plus the staker's source token balance. Follows the source order:
require deposit_amount > 0; Anchor init of stake_info (must not exist);
CPI transfer staker -> vault; read the vault balance (post-transfer);
compute shares; checked-add the agent totals; write the StakeInfo fields;
add_stake_to_game; set cooldown_ends_at = now + ONE_HOUR. -/
def initialize_stake (sys : VaultSys) (staker wallet deposit_amount : Nat) (now : Int) :
    Except GameError (VaultSys × Nat) :=
  if ¬ deposit_amount > 0 then .error .InvalidAmount
  else if (findStake sys.stakes staker).isSome then .error .AccountAlreadyInUse
  else
    match spl_transfer wallet sys.vault_balance deposit_amount with
    | none => .error .TokenTransferFailed
    | some (wallet', vault') =>
      match shares_to_mint_calc vault' deposit_amount sys.total_shares with
      | none => .error .NotEnoughTokens
      | some shares_to_mint =>
        match checked_add_u128 sys.total_shares shares_to_mint with
        | none => .error .NotEnoughTokens
        | some ts' =>
          match checked_add_u128 sys.staked_balance deposit_amount with
          | none => .error .NotEnoughTokens
          | some sb' =>
            match add_stake_to_game sys.total_stake_accounts staker deposit_amount with
            | .error err => .error err
            | .ok tsa' =>
              .ok ({ total_shares := ts', staked_balance := sb', vault_balance := vault',
                     stakes := ⟨staker, deposit_amount, shares_to_mint, 0, now + ONE_HOUR, true⟩
                       :: sys.stakes,
                     total_stake_accounts := tsa' }, wallet')

/-- token.rs stake_tokens (lines 115-178): subsequent deposit. Same shape
as initialize_stake but requires an initialized stake_info and checked-adds
into its amount/shares fields. -/
def stake_tokens (sys : VaultSys) (staker wallet deposit_amount : Nat) (now : Int) :
    Except GameError (VaultSys × Nat) :=
  if ¬ deposit_amount > 0 then .error .InvalidAmount
  else
    match findStake sys.stakes staker with
    | none => .error .AccountAlreadyInUse
    | some si =>
      if ¬ si.is_initialized then .error .NotEnoughTokens
      else
        match spl_transfer wallet sys.vault_balance deposit_amount with
        | none => .error .TokenTransferFailed
        | some (wallet', vault') =>
          match shares_to_mint_calc vault' deposit_amount sys.total_shares with
          | none => .error .NotEnoughTokens
          | some shares_to_mint =>
            match checked_add_u128 sys.total_shares shares_to_mint with
            | none => .error .NotEnoughTokens
            | some ts' =>
              match checked_add_u128 sys.staked_balance deposit_amount with
              | none => .error .NotEnoughTokens
              | some sb' =>
                match checked_add_u64 si.amount deposit_amount with
                | none => .error .NotEnoughTokens
                | some amt' =>
                  match checked_add_u128 si.shares shares_to_mint with
                  | none => .error .NotEnoughTokens
                  | some sh' =>
                    match add_stake_to_game sys.total_stake_accounts staker deposit_amount with
                    | .error err => .error err
                    | .ok tsa' =>
                      .ok ({ total_shares := ts', staked_balance := sb', vault_balance := vault',
                             stakes := updStake sys.stakes staker
                               ⟨staker, amt', sh', si.last_reward_timestamp, now + ONE_HOUR, true⟩,
                             total_stake_accounts := tsa' }, wallet')

/-- token.rs unstake_tokens (lines 183-261), acting on the vault system
plus the staker's destination token balance. Source order: require an
initialized stake_info; require shares_to_redeem > 0 and within the
staker's shares; (the now >= cooldown_ends_at check, lines 197-200, is
commented out in the source, so now is read but unused); withdraw_amount =
floor(shares_to_redeem * vault_balance / total_shares) in checked u128
arithmetic; checked-subtract the agent totals and StakeInfo fields (the
u128 withdraw_amount is narrowed `as u64`, embedded as % U64_MOD);
remove_stake_from_game; CPI transfer vault -> staker. -/
def unstake_tokens (sys : VaultSys) (staker dest shares_to_redeem : Nat) (now : Int) :
    Except GameError (VaultSys × Nat) :=
  match findStake sys.stakes staker with
  | none => .error .AccountAlreadyInUse
  | some si =>
    if ¬ si.is_initialized then .error .NotEnoughTokens
    else if ¬ shares_to_redeem > 0 then .error .InvalidAmount
    else if ¬ si.shares ≥ shares_to_redeem then .error .NotEnoughTokens
    else
      match checked_mul_u128 shares_to_redeem sys.vault_balance with
      | none => .error .NotEnoughTokens
      | some p =>
        match checked_div p sys.total_shares with
        | none => .error .NotEnoughTokens
        | some withdraw_amount =>
          match checked_sub sys.total_shares shares_to_redeem with
          | none => .error .NotEnoughTokens
          | some ts' =>
            match checked_sub sys.staked_balance withdraw_amount with
            | none => .error .NotEnoughTokens
            | some sb' =>
              match checked_sub si.amount (withdraw_amount % U64_MOD) with
              | none => .error .NotEnoughTokens
              | some amt' =>
                match checked_sub si.shares shares_to_redeem with
                | none => .error .NotEnoughTokens
                | some sh' =>
                  match remove_stake_from_game sys.total_stake_accounts staker
                      (withdraw_amount % U64_MOD) with
                  | .error err => .error err
                  | .ok tsa' =>
                    match spl_transfer sys.vault_balance dest (withdraw_amount % U64_MOD) with
                    | none => .error .TokenTransferFailed
                    | some (vault', dest') =>
                      .ok ({ total_shares := ts', staked_balance := sb', vault_balance := vault',
                             stakes := updStake sys.stakes staker
                               ⟨staker, amt', sh', si.last_reward_timestamp,
                                 si.cooldown_ends_at, si.is_initialized⟩,
                             total_stake_accounts := tsa' }, dest')

example : initialize_stake ⟨0, 0, 0, [], []⟩ 7 1000 1000 0 =
    .ok (⟨1000, 1000, 1000, [⟨7, 1000, 1000, 0, 3600, true⟩], [⟨7, 1000⟩]⟩, 0) := by rfl

/-- battle.rs lines 142-154 (resolve_battle_agent_vs_alliance, alliance
loses) and 269-279 / 305-315 (resolve_battle_alliance_vs_alliance, either
alliance loses) — the same arithmetic in all three places. From the two
losing members' token balances and percent_lost (a u8, embedded as Nat):
loser_total by checked u64 add; total_lost = checked u64 mul by percent
then checked div by 100; the leader deduction in plain u128 arithmetic
narrowed `as u64` (embedded % U64_MOD), zero when loser_total = 0; the
partner deduction by checked sub. Returns (total_lost, leader deduction,
partner deduction). -/
def battle_loss_split (leader_balance partner_balance percent_lost : Nat) :
    Except GameError (Nat × Nat × Nat) :=
  match checked_add_u64 leader_balance partner_balance with
  | none => .error .InsufficientFunds
  | some loser_total =>
    match checked_mul_u64 loser_total percent_lost with
    | none => .error .InsufficientFunds
    | some p =>
      match checked_div p 100 with
      | none => .error .InsufficientFunds
      | some total_lost =>
        let leader_deduction : Nat :=
          if loser_total > 0 then (total_lost * leader_balance / loser_total) % U64_MOD else 0
        match checked_sub total_lost leader_deduction with
        | none => .error .InsufficientFunds
        | some partner_deduction => .ok (total_lost, leader_deduction, partner_deduction)

/-- battle.rs lines 180-214 (resolve_battle_agent_vs_alliance with
agent_is_winner = false): the losing single agent's lost_amount =
floor(single_balance * percent_lost / 100) in checked u64 arithmetic;
half_loss = checked div by 2 goes to the alliance leader and the remainder
lost_amount - half_loss to the partner. Returns (lost_amount, gain of the
leader, gain of the partner). -/
def agent_loses_gain_split (single_balance percent_lost : Nat) :
    Except GameError (Nat × Nat × Nat) :=
  match checked_mul_u64 single_balance percent_lost with
  | none => .error .InsufficientFunds
  | some p =>
    match checked_div p 100 with
    | none => .error .InsufficientFunds
    | some lost_amount =>
      match checked_div lost_amount 2 with
      | none => .error .InsufficientFunds
      | some half_loss =>
        match checked_sub lost_amount half_loss with
        | none => .error .InsufficientFunds
        | some remainder => .ok (lost_amount, half_loss, remainder)

/-- The Agent account. src/ holds two draft variants of the struct
(state/agent.rs, and the one instructions/{movement,battle,agent}.rs
compile against, whose fields register_agent initializes at
instructions/agent.rs lines 34-56); this embedding carries the union of
the fields the embedded instructions touch. -/
structure Agent where
  is_alive : Bool
  x : Int
  y : Int
  last_move : Int
  last_battle : Int
  current_battle_start : Option Int
  battle_start_time : Option Int
  last_attack : Int
  next_move_time : Int
  last_alliance : Int
  alliance_with : Option Nat
  alliance_timestamp : Int
  total_shares : Nat
  deriving DecidableEq, Repr

/-- state/agent.rs validate_movement (lines 61-83): alive check, movement
cooldown check against last_move + MOVEMENT_COOLDOWN, then the map bound.
The source compares sqrt((new_x^2 + new_y^2) as f64) with (map_diameter /
2) as f64; it is embedded as the exact equivalent square comparison
new_x^2 + new_y^2 <= radius^2 (sqrt is monotone; exact whenever the f64
values are exactly representable, as at every input the theorems use). -/
def validate_movement (a : Agent) (new_x new_y : Int) (map_diameter : Nat) (timestamp : Int) :
    Except GameError Unit :=
  if ¬ a.is_alive then .error .AgentNotAlive
  else if ¬ timestamp ≥ a.last_move + MOVEMENT_COOLDOWN then .error .MovementCooldown
  else if ¬ new_x ^ 2 + new_y ^ 2 ≤ ((map_diameter / 2 : Nat) : Int) ^ 2 then .error .OutOfBounds
  else .ok ()

/-- state/agent.rs validate_state (lines 86-103): alive check, no battle in
progress, battle cooldown check against last_battle + BATTLE_COOLDOWN. -/
def validate_state (a : Agent) (timestamp : Int) : Except GameError Unit :=
  if ¬ a.is_alive then .error .AgentNotAlive
  else if a.current_battle_start.isSome then .error .BattleInProgress
  else if ¬ timestamp ≥ a.last_battle + BATTLE_COOLDOWN then .error .BattleCooldown
  else .ok ()

/-- instructions/movement.rs MoveAgent accounts (lines 46-58): the Anchor
constraint `agent.is_alive @ GameError::AgentNotAlive` that gates
move_agent before its body runs. -/
def move_agent_gate (a : Agent) : Except GameError Unit :=
  if a.is_alive then .ok () else .error .AgentNotAlive

/-- battle.rs start_battle_simple (lines 76-99): both agents alive, neither
already in a battle, then both get battle_start_time = now. -/
def start_battle_simple (winner loser : Agent) (now : Int) :
    Except GameError (Agent × Agent) :=
  if ¬ winner.is_alive then .error .AgentNotAlive
  else if ¬ loser.is_alive then .error .AgentNotAlive
  else if winner.battle_start_time.isSome then .error .BattleAlreadyStarted
  else if loser.battle_start_time.isSome then .error .BattleAlreadyStarted
  else .ok ({ winner with battle_start_time := some now },
            { loser with battle_start_time := some now })

/-- battle.rs start_battle_agent_vs_alliance (lines 14-39): all three
agents alive, none already in a battle, then all get battle_start_time. -/
def start_battle_agent_vs_alliance (attacker leader partner : Agent) (now : Int) :
    Except GameError (Agent × Agent × Agent) :=
  if ¬ attacker.is_alive then .error .AgentNotAlive
  else if ¬ leader.is_alive then .error .AgentNotAlive
  else if ¬ partner.is_alive then .error .AgentNotAlive
  else if attacker.battle_start_time.isSome then .error .BattleAlreadyStarted
  else if leader.battle_start_time.isSome then .error .BattleAlreadyStarted
  else if partner.battle_start_time.isSome then .error .BattleAlreadyStarted
  else .ok ({ attacker with battle_start_time := some now },
            { leader with battle_start_time := some now },
            { partner with battle_start_time := some now })

/-- battle.rs start_battle_alliance_vs_alliance (lines 42-73): all four
agents alive, none already in a battle, then all get battle_start_time. -/
def start_battle_alliance_vs_alliance (leader_a partner_a leader_b partner_b : Agent)
    (now : Int) : Except GameError (Agent × Agent × Agent × Agent) :=
  if ¬ leader_a.is_alive then .error .AgentNotAlive
  else if ¬ partner_a.is_alive then .error .AgentNotAlive
  else if ¬ leader_b.is_alive then .error .AgentNotAlive
  else if ¬ partner_b.is_alive then .error .AgentNotAlive
  else if leader_a.battle_start_time.isSome then .error .BattleAlreadyStarted
  else if partner_a.battle_start_time.isSome then .error .BattleAlreadyStarted
  else if leader_b.battle_start_time.isSome then .error .BattleAlreadyStarted
  else if partner_b.battle_start_time.isSome then .error .BattleAlreadyStarted
  else .ok ({ leader_a with battle_start_time := some now },
            { partner_a with battle_start_time := some now },
            { leader_b with battle_start_time := some now },
            { partner_b with battle_start_time := some now })

/-- state/game.rs: an Alliance record in game.alliances. -/
structure Alliance where
  agent1 : Nat
  agent2 : Nat
  formed_at : Int
  is_active : Bool
  deriving DecidableEq, Repr

/-- Modelled from the spec: Agent::validate_alliance is called at
alliance.rs line 15 but its body is not under src/ (only this caller is).
Per the spec's form_alliance description it fails with AllianceCooldown
when the initiator's alliance cooldown has not elapsed; the cooldown
length is ALLIANCE_COOLDOWN from constants.rs (86400s; the spec's
can_ally prose says 4 hours, the constant in src/ says 24). The spec
lists no liveness check for it. -/
def validate_alliance (a : Agent) (now : Int) : Except GameError Unit :=
  if now < a.last_alliance + ALLIANCE_COOLDOWN then .error .AllianceCooldown else .ok ()

/-- alliance.rs lines 34-44: find the first record for the unordered pair;
some (some updated) reactivates an inactive record, some none means the
record is already active (error in the caller), none means no record. -/
def reactivate_alliance : List Alliance → Nat → Nat → Int → Option (Option (List Alliance))
  | [], _, _, _ => none
  | al :: rest, ikey, tkey, now =>
    if (al.agent1 = ikey ∧ al.agent2 = tkey) ∨ (al.agent1 = tkey ∧ al.agent2 = ikey) then
      if ¬ al.is_active then some (some (⟨al.agent1, al.agent2, now, true⟩ :: rest))
      else some none
    else
      match reactivate_alliance rest ikey tkey now with
      | some (some rest') => some (some (al :: rest'))
      | some none => some none
      | none => none

/-- alliance.rs form_alliance (lines 8-56), on the two agents (with their
account keys) and game.alliances. Source order: validate_alliance on the
initiator; reject self-alliance; reject if either agent already has
alliance_with set; set both agents' alliance_with/alliance_timestamp;
reactivate an existing inactive record for the pair (error
AllianceAlreadyExists if it is active) or push a new record. -/
def form_alliance (initiator target : Agent) (ikey tkey : Nat) (alliances : List Alliance)
    (now : Int) : Except GameError (Agent × Agent × List Alliance) :=
  match validate_alliance initiator now with
  | .error e => .error e
  | .ok _ =>
    if ikey = tkey then .error .InvalidAlliancePartner
    else if initiator.alliance_with.isSome ∨ target.alliance_with.isSome then
      .error .AllianceAlreadyExists
    else
      let i' := { initiator with alliance_with := some tkey, alliance_timestamp := now }
      let t' := { target with alliance_with := some ikey, alliance_timestamp := now }
      match reactivate_alliance alliances ikey tkey now with
      | some (some l') => .ok (i', t', l')
      | some none => .error .AllianceAlreadyExists
      | none => .ok (i', t', alliances ++ [⟨ikey, tkey, now, true⟩])

/-- alliance.rs lines 76-84: mark the first ACTIVE record for the
unordered pair inactive; none when there is no such record. -/
def deactivate_alliance : List Alliance → Nat → Nat → Option (List Alliance)
  | [], _, _ => none
  | al :: rest, ikey, tkey =>
    if al.is_active ∧
        ((al.agent1 = ikey ∧ al.agent2 = tkey) ∨ (al.agent1 = tkey ∧ al.agent2 = ikey)) then
      some (⟨al.agent1, al.agent2, al.formed_at, false⟩ :: rest)
    else
      match deactivate_alliance rest ikey tkey with
      | some rest' => some (al :: rest')
      | none => none

/-- alliance.rs break_alliance (lines 59-87): error NoAllianceToBreak
unless initiator.alliance_with = some target; clear both agents'
alliance_with/alliance_timestamp; mark the pair's active record inactive,
error AllianceNotFound when none exists. -/
def break_alliance (initiator target : Agent) (ikey tkey : Nat)
    (alliances : List Alliance) : Except GameError (Agent × Agent × List Alliance) :=
  if initiator.alliance_with ≠ some tkey then .error .NoAllianceToBreak
  else
    let i' := { initiator with alliance_with := none, alliance_timestamp := 0 }
    let t' := { target with alliance_with := none, alliance_timestamp := 0 }
    match deactivate_alliance alliances ikey tkey with
    | some l' => .ok (i', t', l')
    | none => .error .AllianceNotFound

/-- Modelled from the spec: the host runtime commits an instruction's
account writes only when it returns success; on error every write is
discarded and no initiated transfer happened (the spec's whole-action
rollback). The observable outcome of break_alliance: the new state on
success, the untouched input state plus the error otherwise. -/
def run_break_alliance (initiator target : Agent) (ikey tkey : Nat)
    (alliances : List Alliance) : (Agent × Agent × List Alliance) × Option GameError :=
  match break_alliance initiator target ikey tkey alliances with
  | .ok s => (s, none)
  | .error e => ((initiator, target, alliances), some e)

/-- instructions/agent.rs kill_agent (lines 69-102): outcome state plus the
list of transfer amounts the instruction issued to the Ledger. -/
structure KillOutcome where
  agent : Agent
  agent_token : Nat
  winner_token : Nat
  transfers : List Nat
  deriving DecidableEq, Repr

/-- instructions/agent.rs kill_agent (lines 69-102): authority-only
(caller must equal game.authority, both embedded as Nat keys); sets
is_alive := false; reads the agent's token balance; transfers the entire
balance to the winner token account only when it is positive. The
KillAgent account list carries no StakeInfo account, so the agent's
StakeInfo records cannot be touched; `stakes` is passed through to state
that frame fact. -/
def kill_agent (caller game_authority : Nat) (agent : Agent)
    (agent_token winner_token : Nat) (stakes : List StakeInfo) :
    Except GameError (KillOutcome × List StakeInfo) :=
  if caller ≠ game_authority then .error .Unauthorized
  else
    let agent' := { agent with is_alive := false }
    let agent_balance := agent_token
    if agent_balance > 0 then
      match spl_transfer agent_token winner_token agent_balance with
      | none => .error .TokenTransferFailed
      | some (a', w') => .ok (⟨agent', a', w', [agent_balance]⟩, stakes)
    else .ok (⟨agent', agent_token, winner_token, []⟩, stakes)

/-- Sum of StakeInfo.shares over a list of stake records. -/
def sumShares (l : List StakeInfo) : Nat := (l.map StakeInfo.shares).sum

/-- One staking-vault instruction together with its arguments: the three
operations of token.rs that mint or burn shares. -/
inductive StakeOp where
  | init (staker wallet amount : Nat) (now : Int)
  | stake (staker wallet amount : Nat) (now : Int)
  | unstake (staker dest shares : Nat) (now : Int)
  deriving DecidableEq, Repr

/-- Run one staking-vault instruction on one agent's vault system. -/
def runStakeOp : StakeOp → VaultSys → Except GameError (VaultSys × Nat)
  | .init k w a now, sys => initialize_stake sys k w a now
  | .stake k w a now, sys => stake_tokens sys k w a now
  | .unstake k d r now, sys => unstake_tokens sys k d r now

/-- Helper: inversion of checked u64 addition. -/
theorem checked_add_u64_eq_some {a b c : Nat} :
    checked_add_u64 a b = some c ↔ a + b < U64_MOD ∧ a + b = c := by
  unfold checked_add_u64
  split <;> simp_all

/-- Helper: inversion of checked u64 multiplication. -/
theorem checked_mul_u64_eq_some {a b c : Nat} :
    checked_mul_u64 a b = some c ↔ a * b < U64_MOD ∧ a * b = c := by
  unfold checked_mul_u64
  split <;> simp_all

/-- Helper: inversion of checked u128 addition. -/
theorem checked_add_u128_eq_some {a b c : Nat} :
    checked_add_u128 a b = some c ↔ a + b < U128_MOD ∧ a + b = c := by
  unfold checked_add_u128
  split <;> simp_all

/-- Helper: inversion of checked u128 multiplication. -/
theorem checked_mul_u128_eq_some {a b c : Nat} :
    checked_mul_u128 a b = some c ↔ a * b < U128_MOD ∧ a * b = c := by
  unfold checked_mul_u128
  split <;> simp_all

/-- Helper: inversion of checked subtraction. -/
theorem checked_sub_eq_some {a b c : Nat} :
    checked_sub a b = some c ↔ b ≤ a ∧ a - b = c := by
  unfold checked_sub
  split <;> simp_all

/-- Helper: inversion of checked division. -/
theorem checked_div_eq_some {a b c : Nat} :
    checked_div a b = some c ↔ ¬ b = 0 ∧ a / b = c := by
  unfold checked_div
  split <;> simp_all

/-- Helper: inversion of the Ledger transfer. -/
theorem spl_transfer_eq_some {s d a s' d' : Nat} :
    spl_transfer s d a = some (s', d') ↔
      (a ≤ s ∧ d + a < U64_MOD) ∧ s - a = s' ∧ d + a = d' := by
  unfold spl_transfer
  split <;> simp_all

/-- Helper: sumShares over a cons. -/
theorem sumShares_cons (si : StakeInfo) (l : List StakeInfo) :
    sumShares (si :: l) = si.shares + sumShares l := by
  simp [sumShares]

/-- Helper: replacing the staker's record changes the share sum by the
difference between the old and the new record's shares. -/
theorem sumShares_updStake (l : List StakeInfo) (k : Nat) (si new : StakeInfo)
    (h : findStake l k = some si) :
    sumShares (updStake l k new) + si.shares = sumShares l + new.shares := by
  induction l with
  | nil => simp [findStake] at h
  | cons x rest ih =>
    unfold findStake at h
    unfold updStake
    by_cases hk : x.staker = k
    · rw [if_pos hk] at h ⊢
      injection h with h
      subst h
      rw [sumShares_cons, sumShares_cons]
      omega
    · rw [if_neg hk] at h ⊢
      have h2 := ih h
      rw [sumShares_cons, sumShares_cons]
      omega

/-- Helper: a found record's shares are at most the share sum. -/
theorem findStake_shares_le (l : List StakeInfo) (k : Nat) (si : StakeInfo)
    (h : findStake l k = some si) : si.shares ≤ sumShares l := by
  induction l with
  | nil => simp [findStake] at h
  | cons x rest ih =>
    unfold findStake at h
    rw [sumShares_cons]
    by_cases hk : x.staker = k
    · rw [if_pos hk] at h
      injection h with h
      subst h
      omega
    · rw [if_neg hk] at h
      have h2 := ih h
      omega

/-- Helper: inversion of a successful initialize_stake — a record for the
staker is prepended and total_shares grows by exactly that record's
shares. -/
theorem initialize_stake_ok {sys sys' : VaultSys} {k w a w' : Nat} {now : Int}
    (h : initialize_stake sys k w a now = .ok (sys', w')) :
    ∃ new, sys'.stakes = new :: sys.stakes ∧
      sys'.total_shares = sys.total_shares + new.shares := by
  unfold initialize_stake at h
  repeat' split at h
  all_goals first
    | exact Except.noConfusion h
    | skip
  simp only [Except.ok.injEq, Prod.mk.injEq] at h
  obtain ⟨hsys, hwq⟩ := h
  subst hsys
  simp only [checked_add_u128_eq_some] at *
  refine ⟨_, rfl, ?_⟩
  dsimp only
  omega

/-- Helper: inversion of a successful stake_tokens — the staker's record
is replaced and total_shares grows by exactly the record's share gain. -/
theorem stake_tokens_ok {sys sys' : VaultSys} {k w a w' : Nat} {now : Int}
    (h : stake_tokens sys k w a now = .ok (sys', w')) :
    ∃ si new, findStake sys.stakes k = some si ∧
      sys'.stakes = updStake sys.stakes k new ∧
      sys'.total_shares + si.shares = sys.total_shares + new.shares := by
  unfold stake_tokens at h
  repeat' split at h
  all_goals first
    | exact Except.noConfusion h
    | skip
  simp only [Except.ok.injEq, Prod.mk.injEq] at h
  obtain ⟨hsys, hwq⟩ := h
  subst hsys
  simp only [checked_add_u128_eq_some, checked_add_u64_eq_some] at *
  exact ⟨_, _, by assumption, rfl, by dsimp only; omega⟩

/-- Helper: inversion of a successful unstake_tokens — the staker's record
is replaced and total_shares shrinks by exactly the record's share
loss. -/
theorem unstake_tokens_ok {sys sys' : VaultSys} {k d r d' : Nat} {now : Int}
    (h : unstake_tokens sys k d r now = .ok (sys', d')) :
    ∃ si new, findStake sys.stakes k = some si ∧
      sys'.stakes = updStake sys.stakes k new ∧
      sys'.total_shares + si.shares = sys.total_shares + new.shares := by
  unfold unstake_tokens at h
  repeat' split at h
  all_goals first
    | exact Except.noConfusion h
    | skip
  simp only [Except.ok.injEq, Prod.mk.injEq] at h
  obtain ⟨hsys, hwq⟩ := h
  subst hsys
  simp only [checked_sub_eq_some, checked_mul_u128_eq_some, checked_div_eq_some] at *
  exact ⟨_, _, by assumption, rfl, by dsimp only; omega⟩

/-- Helper: remove_stake_from_game can only fail with NotEnoughTokens. -/
theorem remove_stake_from_game_error {l : List StakerStake} {k a : Nat} {e : GameError}
    (h : remove_stake_from_game l k a = .error e) : e = .NotEnoughTokens := by
  induction l with
  | nil => simp [remove_stake_from_game] at h
  | cons x rest ih =>
    unfold remove_stake_from_game at h
    split at h
    · split at h <;> simp_all
    · split at h <;> simp_all

/-- C1. The claim says the minted shares use the vault balance BEFORE the
deposit is applied: with balance B = 1000 and total shares S = 1000 before
a deposit of A = 500, shares_to_mint should be floor(500 * 1000 / 1000) =
500. The code transfers first (token.rs line 66/130) and then reads the
vault balance (line 69/133), so the divisor is B + A = 1500 and both
stake_tokens and initialize_stake mint floor(500 * 1000 / 1500) = 333
shares, although the source's own comment at line 68 says the read happens
BEFORE the deposit. -/
theorem C1_deposit_reads_balance_after_transfer :
    stake_tokens ⟨1000, 1000, 1000, [⟨1, 1000, 1000, 0, 3600, true⟩], [⟨1, 1000⟩]⟩ 1 500 500 0 =
      .ok (⟨1333, 1500, 1500, [⟨1, 1500, 1333, 0, 3600, true⟩], [⟨1, 1500⟩]⟩, 0) ∧
    initialize_stake ⟨1000, 1000, 1000, [⟨1, 1000, 1000, 0, 3600, true⟩], [⟨1, 1000⟩]⟩ 2 500 500 0 =
      .ok (⟨1333, 1500, 1500,
            [⟨2, 500, 333, 0, 3600, true⟩, ⟨1, 1000, 1000, 0, 3600, true⟩],
            [⟨1, 1000⟩, ⟨2, 500⟩]⟩, 0) ∧
    (333 : Nat) ≠ 500 * 1000 / 1000 := by
  refine ⟨by rfl, by rfl, by decide⟩

/-- C2 counterexample. The claim asserts total_lost <= loser_total for ANY
u8 percent_lost; at percent_lost = 255 with loser balances (100, 0) the
settlement succeeds with total_lost = 255 > 100 = loser_total. -/
theorem C2_percent_over_100_breaks_bound :
    battle_loss_split 100 0 255 = .ok (255, 255, 0) ∧ ¬ (255 : Nat) ≤ 100 + 0 := by
  refine ⟨by rfl, by decide⟩

/-- C2 (amended): for every two-loser settlement that succeeds, the leader
deduction floor(total_lost * leader_balance / loser_total) and the partner
deduction total_lost - leader_deduction sum exactly to total_lost =
floor(loser_total * percent_lost / 100); and total_lost <= loser_total
holds provided percent_lost <= 100 (not for every u8 percent_lost). -/
theorem C2_battle_conservation (lb pb pct : Nat) (h1 : lb + pb < U64_MOD)
    (h2 : (lb + pb) * pct < U64_MOD) :
    ∃ t l p, battle_loss_split lb pb pct = .ok (t, l, p) ∧
      l + p = t ∧ t = (lb + pb) * pct / 100 ∧
      l = (if lb + pb > 0 then t * lb / (lb + pb) % U64_MOD else 0) ∧
      (pct ≤ 100 → t ≤ lb + pb) := by
  have h100 : ¬ ((100 : Nat) = 0) := by norm_num
  have hle : (if lb + pb > 0 then ((lb + pb) * pct / 100) * lb / (lb + pb) % U64_MOD else 0)
      ≤ (lb + pb) * pct / 100 := by
    split
    · refine le_trans (Nat.mod_le _ _) ?_
      refine le_trans (Nat.div_le_div_right (Nat.mul_le_mul_left _ (Nat.le_add_right lb pb))) ?_
      rename_i hpos
      rw [Nat.mul_div_cancel _ hpos]
    · exact Nat.zero_le _
  refine ⟨(lb + pb) * pct / 100,
    (if lb + pb > 0 then ((lb + pb) * pct / 100) * lb / (lb + pb) % U64_MOD else 0),
    (lb + pb) * pct / 100 -
      (if lb + pb > 0 then ((lb + pb) * pct / 100) * lb / (lb + pb) % U64_MOD else 0),
    ?_, ?_, rfl, rfl, ?_⟩
  · simp only [battle_loss_split, checked_add_u64, checked_mul_u64, checked_div, checked_sub,
      if_pos h1, if_pos h2, if_neg h100, if_pos hle]
  · omega
  · intro hpct
    calc (lb + pb) * pct / 100 ≤ (lb + pb) * 100 / 100 :=
          Nat.div_le_div_right (Nat.mul_le_mul_left _ hpct)
      _ = lb + pb := by omega

/-- C2 witness: the spec's own scenario — balances (600, 400),
percent_lost 50 — instantiates the conservation theorem. -/
theorem C2_battle_conservation_witness :
    (600 : Nat) + 400 < U64_MOD ∧ ((600 : Nat) + 400) * 50 < U64_MOD ∧
    (∃ t l p, battle_loss_split 600 400 50 = .ok (t, l, p) ∧
      l + p = t ∧ t = (600 + 400) * 50 / 100 ∧
      l = (if 600 + 400 > 0 then t * 600 / (600 + 400) % U64_MOD else 0) ∧
      (50 ≤ 100 → t ≤ 600 + 400)) :=
  ⟨by decide, by decide, C2_battle_conservation 600 400 50 (by decide) (by decide)⟩

/-- C3 counterexample. With the single agent's balance 1000, percent_lost
50 and winning alliance balances (leader 600, partner 400): the claimed
proportional rule would give the leader floor(500 * 600 / 1000) = 300, but
the code pays the leader floor(500 / 2) = 250. -/
theorem C3_gain_split_is_half_half_not_proportional :
    agent_loses_gain_split 1000 50 = .ok (500, 250, 250) ∧
    (250 : Nat) ≠ 500 * 600 / (600 + 400) := by
  refine ⟨by rfl, by decide⟩

/-- C3 (amended): when the two-member alliance wins against a single agent
in resolve_battle_agent_vs_alliance, the lost amount is NOT split in
proportion to the members' balances: the leader receives floor(lost / 2)
and the partner the remainder lost - floor(lost / 2), independent of the
members' token balances, and the two gains sum exactly to the lost
amount. -/
theorem C3_agent_loses_split_halves (sb pct : Nat) (h : sb * pct < U64_MOD) :
    ∃ t gl gp, agent_loses_gain_split sb pct = .ok (t, gl, gp) ∧
      gl = t / 2 ∧ gp = t - t / 2 ∧ gl + gp = t ∧ t = sb * pct / 100 := by
  have h100 : ¬ ((100 : Nat) = 0) := by norm_num
  have h2 : ¬ ((2 : Nat) = 0) := by norm_num
  have hle : sb * pct / 100 / 2 ≤ sb * pct / 100 := Nat.div_le_self _ _
  refine ⟨sb * pct / 100, sb * pct / 100 / 2, sb * pct / 100 - sb * pct / 100 / 2,
    ?_, rfl, rfl, ?_, rfl⟩
  · simp only [agent_loses_gain_split, checked_mul_u64, checked_div, checked_sub,
      if_pos h, if_neg h100, if_neg h2, if_pos hle]
  · omega

/-- C3 witness: the half/half split at single balance 1000, percent_lost
50. -/
theorem C3_agent_loses_split_halves_witness :
    (1000 : Nat) * 50 < U64_MOD ∧
    (∃ t gl gp, agent_loses_gain_split 1000 50 = .ok (t, gl, gp) ∧
      gl = t / 2 ∧ gp = t - t / 2 ∧ gl + gp = t ∧ t = 1000 * 50 / 100) :=
  ⟨by decide, C3_agent_loses_split_halves 1000 50 (by decide)⟩

/-- C4 counterexample. The claim says unstake_tokens fails with
CooldownNotOver whenever now < cooldown_ends_at. Here the staker's
StakeInfo has cooldown_ends_at = 1000, now = 5 < 1000, shares_to_redeem =
50 is positive and within the staker's 100 shares — and the call succeeds,
redeeming 50 tokens. -/
theorem C4_unstake_succeeds_during_cooldown :
    unstake_tokens ⟨100, 100, 100, [⟨1, 100, 100, 0, 1000, true⟩], [⟨1, 100⟩]⟩ 1 0 50 5 =
      .ok (⟨50, 50, 50, [⟨1, 50, 50, 0, 1000, true⟩], [⟨1, 50⟩]⟩, 50) ∧
    (5 : Int) < 1000 := by
  refine ⟨by rfl, by decide⟩

/-- C4 (amended): unstake_tokens performs no cooldown check at all — the
now >= cooldown_ends_at requirement is commented out in the source
(token.rs lines 197-200) — so its outcome is identical for every value of
now and it never fails with CooldownNotOver; given shares_to_redeem > 0
and within the staker's shares it proceeds regardless of
cooldown_ends_at. -/
theorem C4_unstake_ignores_cooldown (sys : VaultSys) (staker dest r : Nat) (now now' : Int) :
    unstake_tokens sys staker dest r now = unstake_tokens sys staker dest r now' ∧
    unstake_tokens sys staker dest r now ≠ .error .CooldownNotOver := by
  constructor
  · rfl
  · unfold unstake_tokens
    repeat' split
    all_goals first
      | (rename_i err heq
         have h9 := remove_stake_from_game_error heq
         subst h9
         simp)
      | simp

/-- C5. Share conservation: if the sum of StakeInfo.shares over an
agent's stakers equals the agent's total_shares, then after any successful
initialize_stake, stake_tokens or unstake_tokens it still does — each
operation mints or burns the same share quantity on the staker's record
and on the agent total. -/
theorem C5_share_conservation (op : StakeOp) (sys sys' : VaultSys) (w : Nat)
    (hinv : sumShares sys.stakes = sys.total_shares)
    (hok : runStakeOp op sys = .ok (sys', w)) :
    sumShares sys'.stakes = sys'.total_shares := by
  cases op with
  | init k wal a now =>
    simp only [runStakeOp] at hok
    obtain ⟨new, hstakes, hts⟩ := initialize_stake_ok hok
    rw [hstakes, sumShares_cons, hts]
    omega
  | stake k wal a now =>
    simp only [runStakeOp] at hok
    obtain ⟨si, new, hfind, hstakes, hts⟩ := stake_tokens_ok hok
    have hupd := sumShares_updStake sys.stakes k si new hfind
    have hle := findStake_shares_le sys.stakes k si hfind
    rw [hstakes]
    omega
  | unstake k dst r now =>
    simp only [runStakeOp] at hok
    obtain ⟨si, new, hfind, hstakes, hts⟩ := unstake_tokens_ok hok
    have hupd := sumShares_updStake sys.stakes k si new hfind
    have hle := findStake_shares_le sys.stakes k si hfind
    rw [hstakes]
    omega

/-- C5 witness: a concrete deposit on a vault satisfying the invariant
preserves it. -/
theorem C5_share_conservation_witness :
    sumShares [⟨1, 1000, 1000, 0, 3600, true⟩] = (1000 : Nat) ∧
    runStakeOp (.stake 1 500 500 0) ⟨1000, 1000, 1000, [⟨1, 1000, 1000, 0, 3600, true⟩], [⟨1, 1000⟩]⟩ =
      .ok (⟨1333, 1500, 1500, [⟨1, 1500, 1333, 0, 3600, true⟩], [⟨1, 1500⟩]⟩, 0) ∧
    sumShares [⟨1, 1500, 1333, 0, 3600, true⟩] = (1333 : Nat) :=
  ⟨by decide,
   by rfl,
   C5_share_conservation (.stake 1 500 500 0)
     ⟨1000, 1000, 1000, [⟨1, 1000, 1000, 0, 3600, true⟩], [⟨1, 1000⟩]⟩
     ⟨1333, 1500, 1500, [⟨1, 1500, 1333, 0, 3600, true⟩], [⟨1, 1500⟩]⟩ 0 (by decide) (by rfl)⟩

/-- C8. Deposit/withdraw round trip on an empty vault: for every X > 0
(staker funded with wallet >= X, within u64), initialize_stake into the
empty vault (balance 0, total_shares 0) mints exactly X shares, and
immediately redeeming all X minted shares with unstake_tokens (no reward
accrual in between) transfers exactly X back to the staker. -/
theorem C8_round_trip (X wallet : Nat) (now now' : Int)
    (hx : 0 < X) (hw : X ≤ wallet) (hmax : wallet < U64_MOD) :
    initialize_stake ⟨0, 0, 0, [], []⟩ 7 wallet X now =
      .ok (⟨X, X, X, [⟨7, X, X, 0, now + ONE_HOUR, true⟩], [⟨7, X⟩]⟩, wallet - X) ∧
    unstake_tokens ⟨X, X, X, [⟨7, X, X, 0, now + ONE_HOUR, true⟩], [⟨7, X⟩]⟩ 7 0 X now' =
      .ok (⟨0, 0, 0, [⟨7, 0, 0, 0, now + ONE_HOUR, true⟩], [⟨7, 0⟩]⟩, X) := by
  have hX64 : X < U64_MOD := lt_of_le_of_lt hw hmax
  have hX128 : X < U128_MOD := lt_of_lt_of_le hX64 (by norm_num [U64_MOD, U128_MOD])
  have hXX : X * X < U128_MOD := by
    have h2 : X * X < U64_MOD * U64_MOD := Nat.mul_lt_mul_of_lt_of_lt hX64 hX64
    have h3 : U64_MOD * U64_MOD = U128_MOD := by norm_num [U64_MOD, U128_MOD]
    omega
  have hne : ¬ X = 0 := by omega
  have hmod : X % U64_MOD = X := Nat.mod_eq_of_lt hX64
  have hdiv : X * X / X = X := Nat.mul_div_cancel X hx
  constructor
  · simp only [initialize_stake, findStake, spl_transfer, shares_to_mint_calc,
      checked_add_u128, add_stake_to_game]
    simp [hx, hw, hX64, hX128]
  · simp only [unstake_tokens, findStake, checked_mul_u128, checked_div, checked_sub,
      remove_stake_from_game, spl_transfer, updStake]
    simp [hx, hne, hXX, hdiv, hmod, hX64]

/-- C8 witness: the round trip at X = 5 with a wallet of 5. -/
theorem C8_round_trip_witness :
    (0 : Nat) < 5 ∧ (5 : Nat) ≤ 5 ∧ (5 : Nat) < U64_MOD ∧
    (initialize_stake ⟨0, 0, 0, [], []⟩ 7 5 5 0 =
      .ok (⟨5, 5, 5, [⟨7, 5, 5, 0, 0 + ONE_HOUR, true⟩], [⟨7, 5⟩]⟩, 5 - 5) ∧
     unstake_tokens ⟨5, 5, 5, [⟨7, 5, 5, 0, 0 + ONE_HOUR, true⟩], [⟨7, 5⟩]⟩ 7 0 5 9999 =
      .ok (⟨0, 0, 0, [⟨7, 0, 0, 0, 0 + ONE_HOUR, true⟩], [⟨7, 0⟩]⟩, 5)) :=
  ⟨by decide, by decide, by decide, C8_round_trip 5 5 0 9999 (by decide) (by decide) (by decide)⟩

/-- C6 counterexample. form_alliance checks no liveness on either party:
with a dead target agent (is_alive = false), an initiator whose alliance
cooldown has elapsed, and no prior alliances, the call succeeds and the
dead agent becomes a party to a new active alliance. -/
theorem C6_form_alliance_accepts_dead_target :
    form_alliance ⟨true, 0, 0, 0, 0, none, none, 0, 0, 0, none, 0, 0⟩
        ⟨false, 0, 0, 0, 0, none, none, 0, 0, 0, none, 0, 0⟩ 1 2 [] 86400 =
      .ok (⟨true, 0, 0, 0, 0, none, none, 0, 0, 0, some 2, 86400, 0⟩,
           ⟨false, 0, 0, 0, 0, none, none, 0, 0, 0, some 1, 86400, 0⟩,
           [⟨1, 2, 86400, true⟩]) ∧
    (⟨false, 0, 0, 0, 0, none, none, 0, 0, 0, none, 0, 0⟩ : Agent).is_alive = false := by
  refine ⟨by rfl, by rfl⟩

/-- C6 (amended): a dead agent is rejected with AgentNotAlive by
move_agent (the MoveAgent account constraint) and by every battle-start
instruction, in any participant position; but form_alliance performs no
liveness check, so a dead agent CAN still become a party to a new
alliance (see the counterexample). -/
theorem C6_dead_agent_gates (a b c d : Agent) (now : Int) :
    (¬ a.is_alive → move_agent_gate a = .error .AgentNotAlive) ∧
    ((¬ a.is_alive ∨ ¬ b.is_alive) → start_battle_simple a b now = .error .AgentNotAlive) ∧
    ((¬ a.is_alive ∨ ¬ b.is_alive ∨ ¬ c.is_alive) →
      start_battle_agent_vs_alliance a b c now = .error .AgentNotAlive) ∧
    ((¬ a.is_alive ∨ ¬ b.is_alive ∨ ¬ c.is_alive ∨ ¬ d.is_alive) →
      start_battle_alliance_vs_alliance a b c d now = .error .AgentNotAlive) := by
  refine ⟨?_, ?_, ?_, ?_⟩ <;> intro h
  · unfold move_agent_gate
    simp [h]
  · unfold start_battle_simple
    by_cases ha : a.is_alive <;> by_cases hb : b.is_alive <;> simp_all
  · unfold start_battle_agent_vs_alliance
    by_cases ha : a.is_alive <;> by_cases hb : b.is_alive <;> by_cases hc : c.is_alive <;>
      simp_all
  · unfold start_battle_alliance_vs_alliance
    by_cases ha : a.is_alive <;> by_cases hb : b.is_alive <;> by_cases hc : c.is_alive <;>
      by_cases hd : d.is_alive <;> simp_all

/-- C6 witness: a concrete dead agent is rejected by movement and by all
three battle-start instructions. -/
theorem C6_dead_agent_gates_witness :
    move_agent_gate ⟨false, 0, 0, 0, 0, none, none, 0, 0, 0, none, 0, 0⟩ =
      .error .AgentNotAlive ∧
    start_battle_simple ⟨false, 0, 0, 0, 0, none, none, 0, 0, 0, none, 0, 0⟩
      ⟨true, 0, 0, 0, 0, none, none, 0, 0, 0, none, 0, 0⟩ 0 = .error .AgentNotAlive ∧
    start_battle_agent_vs_alliance ⟨false, 0, 0, 0, 0, none, none, 0, 0, 0, none, 0, 0⟩
      ⟨true, 0, 0, 0, 0, none, none, 0, 0, 0, none, 0, 0⟩
      ⟨true, 0, 0, 0, 0, none, none, 0, 0, 0, none, 0, 0⟩ 0 = .error .AgentNotAlive ∧
    start_battle_alliance_vs_alliance ⟨false, 0, 0, 0, 0, none, none, 0, 0, 0, none, 0, 0⟩
      ⟨true, 0, 0, 0, 0, none, none, 0, 0, 0, none, 0, 0⟩
      ⟨true, 0, 0, 0, 0, none, none, 0, 0, 0, none, 0, 0⟩
      ⟨true, 0, 0, 0, 0, none, none, 0, 0, 0, none, 0, 0⟩ 0 = .error .AgentNotAlive :=
  ⟨(C6_dead_agent_gates ⟨false, 0, 0, 0, 0, none, none, 0, 0, 0, none, 0, 0⟩
      ⟨true, 0, 0, 0, 0, none, none, 0, 0, 0, none, 0, 0⟩
      ⟨true, 0, 0, 0, 0, none, none, 0, 0, 0, none, 0, 0⟩
      ⟨true, 0, 0, 0, 0, none, none, 0, 0, 0, none, 0, 0⟩ 0).1 (by decide),
   (C6_dead_agent_gates ⟨false, 0, 0, 0, 0, none, none, 0, 0, 0, none, 0, 0⟩
      ⟨true, 0, 0, 0, 0, none, none, 0, 0, 0, none, 0, 0⟩
      ⟨true, 0, 0, 0, 0, none, none, 0, 0, 0, none, 0, 0⟩
      ⟨true, 0, 0, 0, 0, none, none, 0, 0, 0, none, 0, 0⟩ 0).2.1 (Or.inl (by decide)),
   (C6_dead_agent_gates ⟨false, 0, 0, 0, 0, none, none, 0, 0, 0, none, 0, 0⟩
      ⟨true, 0, 0, 0, 0, none, none, 0, 0, 0, none, 0, 0⟩
      ⟨true, 0, 0, 0, 0, none, none, 0, 0, 0, none, 0, 0⟩
      ⟨true, 0, 0, 0, 0, none, none, 0, 0, 0, none, 0, 0⟩ 0).2.2.1 (Or.inl (by decide)),
   (C6_dead_agent_gates ⟨false, 0, 0, 0, 0, none, none, 0, 0, 0, none, 0, 0⟩
      ⟨true, 0, 0, 0, 0, none, none, 0, 0, 0, none, 0, 0⟩
      ⟨true, 0, 0, 0, 0, none, none, 0, 0, 0, none, 0, 0⟩
      ⟨true, 0, 0, 0, 0, none, none, 0, 0, 0, none, 0, 0⟩ 0).2.2.2 (Or.inl (by decide))⟩

/-- C7. Whenever break_alliance returns an error (NoAllianceToBreak when
the initiator is not allied with the target, AllianceNotFound when no
active record for the pair exists), the committed state — under the
runtime's whole-action rollback, run_break_alliance — is exactly the
input state: both agents' alliance_with/alliance_timestamp fields and the
game's alliance list are unchanged, and those two are the only possible
errors. -/
theorem C7_break_alliance_error_frame (i t : Agent) (ik tk : Nat) (al : List Alliance)
    (e : GameError) (h : (run_break_alliance i t ik tk al).2 = some e) :
    (run_break_alliance i t ik tk al).1 = (i, t, al) ∧
    (e = .NoAllianceToBreak ∨ e = .AllianceNotFound) := by
  unfold run_break_alliance at h ⊢
  cases hb : break_alliance i t ik tk al with
  | ok s => rw [hb] at h; simp at h
  | error e' =>
    rw [hb] at h
    simp only [Option.some.injEq] at h
    subst h
    constructor
    · simp [hb]
    · unfold break_alliance at hb
      split at hb
      · simp_all
      · split at hb <;> simp_all

/-- C7 witness: an initiator with no alliance set makes break_alliance
fail with NoAllianceToBreak, and the committed state is the input state. -/
theorem C7_break_alliance_error_frame_witness :
    (run_break_alliance ⟨true, 0, 0, 0, 0, none, none, 0, 0, 0, none, 0, 0⟩
        ⟨true, 0, 0, 0, 0, none, none, 0, 0, 0, none, 0, 0⟩ 1 2 []).2 =
      some .NoAllianceToBreak ∧
    ((run_break_alliance ⟨true, 0, 0, 0, 0, none, none, 0, 0, 0, none, 0, 0⟩
        ⟨true, 0, 0, 0, 0, none, none, 0, 0, 0, none, 0, 0⟩ 1 2 []).1 =
      (⟨true, 0, 0, 0, 0, none, none, 0, 0, 0, none, 0, 0⟩,
       ⟨true, 0, 0, 0, 0, none, none, 0, 0, 0, none, 0, 0⟩, []) ∧
     (GameError.NoAllianceToBreak = .NoAllianceToBreak ∨
      GameError.NoAllianceToBreak = .AllianceNotFound)) :=
  ⟨by rfl, C7_break_alliance_error_frame _ _ 1 2 [] _ (by rfl)⟩

/-- C9. Cooldown checks are inclusive at the boundary: for an alive agent
(in-bounds destination, no battle in progress), validate_movement passes
at now = last_move + MOVEMENT_COOLDOWN and fails with MovementCooldown at
now = last_move + MOVEMENT_COOLDOWN - 1; validate_state passes at now =
last_battle + BATTLE_COOLDOWN and fails with BattleCooldown at now =
last_battle + BATTLE_COOLDOWN - 1. -/
theorem C9_cooldown_boundary (a : Agent) (nx ny : Int) (d : Nat)
    (halive : a.is_alive = true) (hnb : a.current_battle_start = none)
    (hbound : nx ^ 2 + ny ^ 2 ≤ ((d / 2 : Nat) : Int) ^ 2) :
    validate_movement a nx ny d (a.last_move + MOVEMENT_COOLDOWN) = .ok () ∧
    validate_movement a nx ny d (a.last_move + MOVEMENT_COOLDOWN - 1) =
      .error .MovementCooldown ∧
    validate_state a (a.last_battle + BATTLE_COOLDOWN) = .ok () ∧
    validate_state a (a.last_battle + BATTLE_COOLDOWN - 1) = .error .BattleCooldown := by
  have hm1 : a.last_move + MOVEMENT_COOLDOWN ≥ a.last_move + MOVEMENT_COOLDOWN := le_refl _
  have hm2 : ¬ (a.last_move + MOVEMENT_COOLDOWN - 1 ≥ a.last_move + MOVEMENT_COOLDOWN) := by
    unfold MOVEMENT_COOLDOWN
    omega
  have hs1 : a.last_battle + BATTLE_COOLDOWN ≥ a.last_battle + BATTLE_COOLDOWN := le_refl _
  have hs2 : ¬ (a.last_battle + BATTLE_COOLDOWN - 1 ≥ a.last_battle + BATTLE_COOLDOWN) := by
    unfold BATTLE_COOLDOWN
    omega
  have hbound' : nx ^ 2 + ny ^ 2 ≤ ((d : Int) / 2) ^ 2 := by simpa using hbound
  refine ⟨?_, ?_, ?_, ?_⟩ <;>
    simp [validate_movement, validate_state, halive, hnb, hbound, hbound', hm1, hm2, hs1, hs2]

/-- C9 witness: a concrete alive agent at the exact boundary timestamps,
destination (0, 0) on a map of diameter 1000. -/
theorem C9_cooldown_boundary_witness :
    validate_movement ⟨true, 0, 0, 50, 60, none, none, 0, 0, 0, none, 0, 0⟩ 0 0 1000
      (50 + MOVEMENT_COOLDOWN) = .ok () ∧
    validate_movement ⟨true, 0, 0, 50, 60, none, none, 0, 0, 0, none, 0, 0⟩ 0 0 1000
      (50 + MOVEMENT_COOLDOWN - 1) = .error .MovementCooldown ∧
    validate_state ⟨true, 0, 0, 50, 60, none, none, 0, 0, 0, none, 0, 0⟩
      (60 + BATTLE_COOLDOWN) = .ok () ∧
    validate_state ⟨true, 0, 0, 50, 60, none, none, 0, 0, 0, none, 0, 0⟩
      (60 + BATTLE_COOLDOWN - 1) = .error .BattleCooldown :=
  C9_cooldown_boundary ⟨true, 0, 0, 50, 60, none, none, 0, 0, 0, none, 0, 0⟩ 0 0 1000
    (by decide) (by decide) (by decide)

/-- C10. kill_agent, called by the game authority: sets is_alive to
false, zeroes the agent's token account, credits its whole prior balance
to the winner token account, issues exactly one Ledger transfer when the
balance is positive and none when it is zero, and leaves every other
agent field — total_shares included — and all StakeInfo records exactly
as they were, so shares on the emptied vault remain outstanding. -/
theorem C10_kill_agent_transfers_and_frame (caller auth : Nat) (agent : Agent)
    (tok wtok : Nat) (stakes : List StakeInfo)
    (hauth : caller = auth) (hov : wtok + tok < U64_MOD) :
    kill_agent caller auth agent tok wtok stakes =
      .ok (⟨{ agent with is_alive := false }, 0, wtok + tok,
            if tok > 0 then [tok] else []⟩, stakes) := by
  unfold kill_agent spl_transfer
  rw [if_neg (by simp [hauth])]
  by_cases ht : tok > 0
  · rw [if_pos ht, if_pos ⟨le_refl tok, hov⟩]
    simp [ht]
  · rw [if_neg ht]
    have h0 : tok = 0 := by omega
    subst h0
    simp

/-- C10 witness: concrete kill_agent call with a positive balance. -/
theorem C10_kill_agent_witness :
    kill_agent 3 3 ⟨true, 0, 0, 0, 0, none, none, 0, 0, 0, none, 0, 77⟩ 40 5
        [⟨1, 10, 10, 0, 0, true⟩] =
      .ok (⟨{ (⟨true, 0, 0, 0, 0, none, none, 0, 0, 0, none, 0, 77⟩ : Agent) with
              is_alive := false }, 0, 5 + 40,
            if 40 > 0 then [40] else []⟩, [⟨1, 10, 10, 0, 0, true⟩]) :=
  C10_kill_agent_transfers_and_frame 3 3 ⟨true, 0, 0, 0, 0, none, none, 0, 0, 0, none, 0, 77⟩
    40 5 [⟨1, 10, 10, 0, 0, true⟩] (by decide) (by decide)
